import Mathlib

/-!
Shallow embedding of `src/main.c` of the `metar` command-line tool.

Characters/bytes are modelled as `Nat` (C `char` values, ASCII); C strings
are `List Nat` (the list holds the bytes of the string, without the final
NUL terminator, exactly as `strlen`/array indexing see them).  The URL
buffer `char url[URL_BUFFER_LEN]` is a `List Nat` of length `bufLen`
together with a bounds-checked write operation `cwrite`, so that an
out-of-bounds write (C undefined behaviour) becomes an observable `oob`
outcome, and the `assert` in `formURL` becomes an observable `assertFail`
outcome.  The libcurl transport is an oracle `net : List Nat → FetchResult`
mapping a URL (C string contents) to the transport result code, the
resolved response code, and the list of data chunks delivered to the
write callback.
-/

namespace Metar

/-- Byte values of a Lean string literal, used to transcribe the C string literals. -/
def str (s : String) : List Nat := s.data.map Char.toNat

/-- `#define URL_PREFIX_TAF` (main.c line 36). -/
def URL_PFX_TAF : List Nat := str "http://tgftp.nws.noaa.gov/data/forecasts/taf/stations/"

/-- `#define URL_PREFIX_DECODED` (main.c line 37). -/
def URL_PFX_DECODED : List Nat := str "http://tgftp.nws.noaa.gov/data/observations/metar/decoded/"

/-- `#define URL_PREFIX_METAR` (main.c line 38). -/
def URL_PFX_METAR : List Nat := str "http://tgftp.nws.noaa.gov/data/observations/metar/stations/"

/-- `#define URL_EXTENSION ".TXT"` (main.c line 39). -/
def URL_EXTENSION : List Nat := str ".TXT"

/-- `#define STATION_ID_LEN (4)` (main.c line 41). -/
def STATION_ID_LEN : Nat := 4

/-- `#define DEFAULT_STATION_PREFIX "K"` (main.c line 42). -/
def DEFAULT_STATION_PFX : List Nat := str "K"

/-- `#define DEFAULT_STATION_PREFIX_LEN` = `sizeof("K") - 1` = 1 (main.c line 43). -/
def DEFAULT_STATION_PFX_LEN : Nat := 1

/-- `#define HTTP_RESPONSE_NOT_FOUND 404` (main.c line 44). -/
def HTTP_RESPONSE_NOT_FOUND : Int := 404

/-- `CURLE_OK` = 0 (curl.h). -/
def CURLE_OK : Nat := 0

/-- `CURLE_REMOTE_FILE_NOT_FOUND` = 78 (curl.h). -/
def CURLE_REMOTE_FILE_NOT_FOUND : Nat := 78

/-- `#define LONGEST_URL_PREFIX URL_PREFIX_METAR` (main.c line 52). -/
def LONGEST_URL_PFX : List Nat := URL_PFX_METAR

/-- `#define URL_BUFFER_LEN` (main.c lines 53-57): longest prefix without its
terminator, plus the station field, plus the extension without its
terminator, plus one final terminator. -/
def URL_BUFFER_LEN : Nat :=
  LONGEST_URL_PFX.length + STATION_ID_LEN + URL_EXTENSION.length + 1

/-- `enum urlType` (main.c lines 59-63). -/
inductive UrlType
  | METAR
  | TAF
  | Decoded
deriving DecidableEq

/-- The `switch (type)` prefix selection in `formURL` (main.c lines 83-97).
The C `default: return false` arm is unreachable: the enum has exactly these
three values, as does this inductive. -/
def pfxFor : UrlType → List Nat
  | .METAR => URL_PFX_METAR
  | .TAF => URL_PFX_TAF
  | .Decoded => URL_PFX_DECODED

/-- C `isalnum` on a byte, POSIX locale: ASCII digits and letters. -/
def isalnum (c : Nat) : Bool :=
  (48 ≤ c && c ≤ 57) || (65 ≤ c && c ≤ 90) || (97 ≤ c && c ≤ 122)

/-- C `toupper` on a byte, POSIX locale: lower-case ASCII letters are mapped
down by 32, everything else is unchanged. -/
def toupper (c : Nat) : Nat :=
  if 97 ≤ c && c ≤ 122 then c - 32 else c

/-- `strncpy(buf, src, n)` into the fresh (uninitialized) local buffer:
writes exactly `n` bytes, copying from `src` and padding with NUL once `src`
is exhausted.  Models `strncpy(buf, prefix, bufLen)` (main.c line 98). -/
def strncpyFresh (src : List Nat) (n : Nat) : List Nat :=
  match n, src with
  | 0, _ => []
  | n + 1, [] => 0 :: strncpyFresh [] n
  | n + 1, c :: cs => c :: strncpyFresh cs n

/-- A single bounds-checked buffer write: `buf[i] = c` succeeds exactly when
`i` is inside the `bufLen`-byte buffer; an out-of-bounds store (C undefined
behaviour) is `none`. -/
def cwrite (bufLen : Nat) (buf : List Nat) (i : Nat) (c : Nat) : Option (List Nat) :=
  if i < bufLen then some (buf.set i c) else none

/-- Sequential bounds-checked writes of `src` starting at index `w`:
models `memcpy(buf + written, ...)` (main.c line 110) and
`strncpy(buf + written, URL_EXTENSION, sizeof(URL_EXTENSION))` (main.c line 117). -/
def writeNats (bufLen : Nat) (buf : List Nat) (w : Nat) : List Nat → Option (List Nat)
  | [] => some buf
  | c :: cs =>
    match cwrite bufLen buf w c with
    | some buf2 => writeNats bufLen buf2 (w + 1) cs
    | none => none

/-- Outcome of the station-copying loop of `formURL`. -/
inductive LoopOut
  | ok (buf : List Nat)
  | badChar
  | oob
deriving DecidableEq

/-- The station-copying loop of `formURL` (main.c lines 102-108):
`for (size_t i = 1; i <= stationLen; i++)`, transferring the station id from
end to beginning while capitalizing, rejecting the first (from the end)
non-alphanumeric character.  The index list is instantiated with
`List.range' 1 stationLen = [1, ..., stationLen]`, the exact values taken
by the C loop variable `i`. -/
def stationLoop (bufLen slen : Nat) (station : List Nat) (written : Nat) :
    List Nat → List Nat → LoopOut
  | [], buf => .ok buf
  | i :: is, buf =>
    if isalnum (station.getD (slen - i) 0) then
      match cwrite bufLen buf ((written + STATION_ID_LEN) - i)
          (toupper (station.getD (slen - i) 0)) with
      | some buf2 => stationLoop bufLen slen station written is buf2
      | none => .oob
    else .badChar

/-- The two distinct validation failures of `formURL`: the wrong-length
diagnostic (main.c line 74) and the non-alphanumeric diagnostic
(main.c line 104). -/
inductive FormErr
  | badLength
  | badChar
deriving DecidableEq

/-- Result of `formURL`: `ok` with the final buffer contents when the C
function returns `true`; `err` when it returns `false` after a validation
diagnostic; `oob` if any buffer store were out of bounds (C undefined
behaviour); `assertFail` if the `assert` on line 116 were to fire. -/
inductive FormResult
  | ok (buf : List Nat)
  | err (e : FormErr)
  | oob
  | assertFail
deriving DecidableEq

/-- `formURL(buf, bufLen, type, station)` (main.c lines 69-119), with the
buffer made explicit.  `station` is the byte content of the NUL-terminated
argument string, so `station.length` is its `strlen`. -/
def formURL (bufLen : Nat) (type : UrlType) (station : List Nat) : FormResult :=
  let stationLen := station.length
  if stationLen ≠ STATION_ID_LEN ∧
      stationLen ≠ STATION_ID_LEN - DEFAULT_STATION_PFX_LEN then
    .err .badLength
  else
    let pfx := pfxFor type
    let buf0 := strncpyFresh pfx bufLen
    let written := pfx.length
    match stationLoop bufLen stationLen station written
        (List.range' 1 stationLen) buf0 with
    | .badChar => .err .badChar
    | .oob => .oob
    | .ok buf1 =>
      let afterK :=
        if stationLen = STATION_ID_LEN - DEFAULT_STATION_PFX_LEN then
          writeNats bufLen buf1 written DEFAULT_STATION_PFX
        else some buf1
      match afterK with
      | none => .oob
      | some buf2 =>
        let written2 := written + STATION_ID_LEN
        if bufLen ≥ written2 + (URL_EXTENSION.length + 1) then
          match writeNats bufLen buf2 written2 (URL_EXTENSION ++ [0]) with
          | some buf3 => .ok buf3
          | none => .oob
        else .assertFail

/-- Reading the buffer back as a C string: the bytes before the first NUL. -/
def cstring (buf : List Nat) : List Nat := buf.takeWhile (fun c => c != 0)

/-- The URL handed to `curl_easy_setopt(curl, CURLOPT_URL, url)` for a given
kind and station, when `formURL` succeeds. -/
def urlOf (t : UrlType) (s : List Nat) : Option (List Nat) :=
  match formURL URL_BUFFER_LEN t s with
  | .ok buf => some (cstring buf)
  | _ => none

/-- The primary request kind: `decoded ? Decoded : METAR` (main.c line 184). -/
def primaryKind (decoded : Bool) : UrlType := if decoded then .Decoded else .METAR

/-- The primary URL of the loop iteration (main.c line 184). -/
def primaryURL (decoded : Bool) (s : List Nat) : Option (List Nat) :=
  urlOf (primaryKind decoded) s

/-- The transport result of one `curl_easy_perform`: the `CURLcode`, the
`CURLINFO_RESPONSE_CODE` long, and the data chunks delivered to the
`CURLOPT_WRITEFUNCTION` callback during the transfer. -/
structure FetchResult where
  res : Nat
  response : Int
  chunks : List (List Nat)
deriving DecidableEq

/-- `printData` (main.c lines 127-132) on one delivered chunk: the callback
does `printf("%s", contents)`, which emits the bytes of the chunk only up to
the first NUL byte (the C even reads past the chunk when no NUL is present,
since libcurl does not NUL-terminate the data; the model idealizes that
undefined behaviour as stopping at the chunk end). -/
def printData (contents : List Nat) : List Nat :=
  contents.takeWhile (fun c => c != 0)

/-- All bytes written to stdout during one transfer: `printData` applied to
each delivered chunk, in order. -/
def printedBody (chunks : List (List Nat)) : List Nat :=
  (chunks.map printData).flatten

/-- Outcome classification of a primary fetch (main.c lines 192-203). -/
inductive Outcome
  | notFound
  | transportError
  | success
deriving DecidableEq

/-- The classification chain of main.c lines 192-203:
`if (res == CURLE_REMOTE_FILE_NOT_FOUND || response == HTTP_RESPONSE_NOT_FOUND)`
then not-found, else `if (res != CURLE_OK)` then transport error, else
fall through to the success path. -/
def classify (res : Nat) (response : Int) : Outcome :=
  if res = CURLE_REMOTE_FILE_NOT_FOUND ∨ response = HTTP_RESPONSE_NOT_FOUND then
    .notFound
  else if res ≠ CURLE_OK then
    .transportError
  else
    .success

/-- The `warnx` diagnostics the program can emit to stderr. -/
inductive Diag
  | lengthMsg
  | alnumMsg
  | notFound (station : List Nat)
  | strerror (res : Nat)
  | unableToFetch (station : List Nat)
  | needArg
deriving DecidableEq

/-- Which diagnostic each `formURL` validation failure prints
(main.c lines 74 and 104). -/
def errDiag : FormErr → Diag
  | .badLength => .lengthMsg
  | .badChar => .alnumMsg

/-- Observable events of a run, in order: a `curl_easy_perform` against a
URL, bytes written to stdout, a diagnostic on stderr, or (never reachable)
undefined behaviour / an assertion failure inside `formURL`. -/
inductive Event
  | fetch (url : List Nat) (r : FetchResult)
  | out (bytes : List Nat)
  | diag (d : Diag)
  | ub
deriving DecidableEq

/-- Is the event a stderr diagnostic? -/
def isDiag : Event → Bool
  | .diag _ => true
  | _ => false

/-- One iteration of the station loop of `main` (main.c lines 182-212):
build the primary URL (skipping the station on validation failure), perform
the GET (the callback prints delivered data during the transfer), classify,
and on success optionally perform the silent best-effort TAF fetch. -/
def processStation (net : List Nat → FetchResult) (decoded tafs : Bool)
    (station : List Nat) : List Event :=
  match formURL URL_BUFFER_LEN (primaryKind decoded) station with
  | .err e => [.diag (errDiag e)]
  | .oob => [.ub]
  | .assertFail => [.ub]
  | .ok buf =>
    let url := cstring buf
    let r := net url
    let prim : List Event := [.fetch url r, .out (printedBody r.chunks)]
    match classify r.res r.response with
    | .notFound => prim ++ [.diag (.notFound station)]
    | .transportError => prim ++ [.diag (.strerror r.res), .diag (.unableToFetch station)]
    | .success =>
      prim ++
        (if tafs then
          match formURL URL_BUFFER_LEN .TAF station with
          | .ok buf2 =>
            let url2 := cstring buf2
            let r2 := net url2
            [.fetch url2 r2, .out (printedBody r2.chunks)]
          | _ => []
        else [])

/-- The `for (int arg = 0; arg < argc; arg++)` loop of `main`
(main.c lines 182-212), over the station arguments in order. -/
def runLoop (net : List Nat → FetchResult) (decoded tafs : Bool) :
    List (List Nat) → List Event
  | [] => []
  | s :: rest => processStation net decoded tafs s ++ runLoop net decoded tafs rest

/-- The bytes a list of events writes to standard output, in order. -/
def stdoutOf (evs : List Event) : List Nat :=
  (evs.filterMap fun e =>
    match e with
    | .out bs => some bs
    | _ => none).flatten

/-- `EX_OK` (sysexits.h). -/
def EX_OK : Nat := 0

/-- `EX_USAGE` (sysexits.h), returned by `usage()` (main.c lines 135-143). -/
def EX_USAGE : Nat := 64

/-- `EX_SOFTWARE` (sysexits.h), returned when `curl_easy_init` fails
(main.c lines 172-174). -/
def EX_SOFTWARE : Nat := 70

/-- One option group after its `-`: each character must be `d` (100) or
`t` (116); any other character makes `getopt` return `?`, upon which `main`
returns `usage()` (main.c lines 153-166). -/
def scanOpts (d t : Bool) : List Nat → Option (Bool × Bool)
  | [] => some (d, t)
  | c :: cs =>
    if c = 100 then scanOpts true t cs
    else if c = 116 then scanOpts d true cs
    else none

/-- POSIX `getopt(argc, argv, "dt")` over the argument list: consume leading
option groups, stop at the first non-option argument, at a lone `-`, or
after `--`; fail on any unrecognized option character.  Returns the decoded
and tafs flags and the remaining (station) arguments, i.e. the state after
`argc -= optind; argv += optind` (main.c lines 167-168). -/
def getoptAll (d t : Bool) : List (List Nat) → Option (Bool × Bool × List (List Nat))
  | [] => some (d, t, [])
  | a :: rest =>
    match a with
    | 45 :: cs =>
      if cs = [] then some (d, t, (45 :: cs) :: rest)
      else if cs = [45] then some (d, t, rest)
      else
        match scanOpts d t cs with
        | some (d2, t2) => getoptAll d2 t2 rest
        | none => none
    | _ => some (d, t, a :: rest)

/-- `main` (main.c lines 146-217): parse options (unrecognized option →
`usage()` → `EX_USAGE`), require at least one station argument (else a
diagnostic and `usage()` → `EX_USAGE`), require the curl handle
(`curl_easy_init` failure → `EX_SOFTWARE`), then run the station loop and
return `EX_OK`.  `curlOk` models whether `curl_easy_init` succeeds. -/
def metarMain (net : List Nat → FetchResult) (curlOk : Bool)
    (args : List (List Nat)) : Nat × List Event :=
  match getoptAll false false args with
  | none => (EX_USAGE, [])
  | some (d, t, stations) =>
    if stations.length < 1 then (EX_USAGE, [.diag .needArg])
    else if curlOk = false then (EX_SOFTWARE, [])
    else (EX_OK, runLoop net d t stations)

/-- A concrete transport oracle used to exercise the model: every request
succeeds (CURLE_OK, status 200) and delivers no data. -/
def netOk : List Nat → FetchResult := fun _ => ⟨CURLE_OK, 200, []⟩

/-- A concrete transport oracle used to exercise the model: the METAR URLs of
stations KJFK and KLAX succeed with fixed bodies (KLAX's body contains an
interior NUL byte); every other URL is a 404 remote-file-not-found. -/
def netTwo : List Nat → FetchResult := fun url =>
  if url = str "http://tgftp.nws.noaa.gov/data/observations/metar/stations/KJFK.TXT" then
    ⟨CURLE_OK, 200, [[72, 73, 10]]⟩
  else if url = str "http://tgftp.nws.noaa.gov/data/observations/metar/stations/KLAX.TXT" then
    ⟨CURLE_OK, 200, [[87, 0, 88, 10]]⟩
  else ⟨CURLE_REMOTE_FILE_NOT_FOUND, 404, []⟩

end Metar

namespace Metar

/-! ### Helper lemmas about the URL builder -/

theorem STATION_ID_LEN_eq : STATION_ID_LEN = 4 := rfl

theorem SHORT_LEN_eq : STATION_ID_LEN - DEFAULT_STATION_PFX_LEN = 3 := rfl

theorem toupper_ne_zero {c : Nat} (h : isalnum c = true) : (toupper c != 0) = true := by
  simp only [isalnum, Bool.or_eq_true, Bool.and_eq_true, decide_eq_true_eq] at h
  simp only [toupper, bne_iff_ne, ne_eq]
  split
  case isTrue hc =>
    simp only [Bool.and_eq_true, decide_eq_true_eq] at hc
    omega
  case isFalse hc =>
    simp only [Bool.and_eq_true, decide_eq_true_eq] at hc
    omega

theorem stationLoop_ne_oob {bufLen slen written : Nat} {station : List Nat} :
    ∀ is : List Nat, (∀ i ∈ is, 1 ≤ i) → written + STATION_ID_LEN ≤ bufLen →
      ∀ buf, stationLoop bufLen slen station written is buf ≠ .oob := by
  intro is
  induction is with
  | nil => intro _ _ buf; simp [stationLoop]
  | cons i is ih =>
    intro h1 h2 buf
    have hi : 1 ≤ i := h1 i (List.mem_cons_self i is)
    have hidx : (written + STATION_ID_LEN) - i < bufLen := by
      rw [STATION_ID_LEN_eq] at h2 ⊢; omega
    simp only [stationLoop]
    split
    · simp only [cwrite, if_pos hidx]
      exact ih (fun j hj => h1 j (List.mem_cons_of_mem i hj)) h2 _
    · simp

theorem stationLoop_ok_of_alnum {bufLen slen written : Nat} {station : List Nat} :
    ∀ is : List Nat, (∀ i ∈ is, 1 ≤ i) → written + STATION_ID_LEN ≤ bufLen →
      (∀ i ∈ is, isalnum (station.getD (slen - i) 0) = true) →
      ∀ buf, ∃ b, stationLoop bufLen slen station written is buf = .ok b := by
  intro is
  induction is with
  | nil => intro _ _ _ buf; exact ⟨buf, rfl⟩
  | cons i is ih =>
    intro h1 h2 h3 buf
    have hi : 1 ≤ i := h1 i (List.mem_cons_self i is)
    have hidx : (written + STATION_ID_LEN) - i < bufLen := by
      rw [STATION_ID_LEN_eq] at h2 ⊢; omega
    simp only [stationLoop, h3 i (List.mem_cons_self i is), if_true, cwrite, if_pos hidx]
    exact ih (fun j hj => h1 j (List.mem_cons_of_mem i hj)) h2
      (fun j hj => h3 j (List.mem_cons_of_mem i hj)) _

theorem stationLoop_alnum_of_ok {bufLen slen written : Nat} {station : List Nat} :
    ∀ is : List Nat, ∀ buf b, stationLoop bufLen slen station written is buf = .ok b →
      ∀ i ∈ is, isalnum (station.getD (slen - i) 0) = true := by
  intro is
  induction is with
  | nil => intro _ _ _ i hi; cases hi
  | cons i is ih =>
    intro buf b hok j hj
    by_cases hc : isalnum (station.getD (slen - i) 0) = true
    · rcases List.mem_cons.mp hj with rfl | hj2
      · exact hc
      · simp only [stationLoop, hc, if_true] at hok
        cases hcw : cwrite bufLen buf ((written + STATION_ID_LEN) - i)
            (toupper (station.getD (slen - i) 0)) with
        | none => rw [hcw] at hok; simp at hok
        | some buf2 =>
          rw [hcw] at hok
          exact ih buf2 b hok j hj2
    · simp only [stationLoop, hc, if_false] at hok
      simp at hok

theorem writeNats_some {bufLen : Nat} :
    ∀ (bs buf : List Nat) (w : Nat), w + bs.length ≤ bufLen →
      ∃ b, writeNats bufLen buf w bs = some b := by
  intro bs
  induction bs with
  | nil => intro buf w _; exact ⟨buf, rfl⟩
  | cons c cs ih =>
    intro buf w h
    simp only [List.length_cons] at h
    have hw : w < bufLen := by omega
    simp only [writeNats, cwrite, if_pos hw]
    exact ih _ _ (by omega)

theorem getD_mem_of_le {s : List Nat} {i : Nat} (h1 : 1 ≤ i) (h2 : i ≤ s.length) :
    s.getD (s.length - i) 0 ∈ s := by
  have hlt : s.length - i < s.length := by omega
  rw [List.getD_eq_getElem s 0 hlt]
  exact List.getElem_mem hlt

end Metar

namespace Metar

theorem range'_one_le {n : Nat} : ∀ i ∈ List.range' 1 n, 1 ≤ i := by
  intro i hi; exact (List.mem_range'_1.mp hi).1

theorem pfx_written_le (t : UrlType) :
    (pfxFor t).length + STATION_ID_LEN ≤ URL_BUFFER_LEN := by
  cases t <;> decide

theorem pfx_lt (t : UrlType) : (pfxFor t).length < URL_BUFFER_LEN := by
  cases t <;> decide

theorem pfx_assert_holds (t : UrlType) :
    URL_BUFFER_LEN ≥ (pfxFor t).length + STATION_ID_LEN + (URL_EXTENSION.length + 1) := by
  cases t <;> decide

theorem formURL_badLength (t : UrlType) (s : List Nat)
    (hlen : ¬(s.length = 4 ∨ s.length = 3)) :
    formURL URL_BUFFER_LEN t s = .err .badLength := by
  have hcond : s.length ≠ STATION_ID_LEN ∧
      s.length ≠ STATION_ID_LEN - DEFAULT_STATION_PFX_LEN := by
    rw [SHORT_LEN_eq, STATION_ID_LEN_eq]; omega
  simp only [formURL, if_pos hcond]

theorem formURL_ok_of_valid (t : UrlType) (s : List Nat)
    (hlen : s.length = 4 ∨ s.length = 3) (halnum : ∀ c ∈ s, isalnum c = true) :
    ∃ b, formURL URL_BUFFER_LEN t s = .ok b := by
  have hwr := pfx_written_le t
  have hKlt := pfx_lt t
  have hassert := pfx_assert_holds t
  have hcond : ¬(s.length ≠ STATION_ID_LEN ∧
      s.length ≠ STATION_ID_LEN - DEFAULT_STATION_PFX_LEN) := by
    rw [SHORT_LEN_eq, STATION_ID_LEN_eq]; omega
  have h3 : ∀ i ∈ List.range' 1 s.length, isalnum (s.getD (s.length - i) 0) = true := by
    intro i hi
    obtain ⟨hi1, hi2⟩ := List.mem_range'_1.mp hi
    exact halnum _ (getD_mem_of_le hi1 (by omega))
  obtain ⟨b1, hb1⟩ := stationLoop_ok_of_alnum (List.range' 1 s.length) range'_one_le hwr h3
      (strncpyFresh (pfxFor t) URL_BUFFER_LEN)
  rcases hlen with h4 | h3len
  · obtain ⟨b3, hb3⟩ := @writeNats_some URL_BUFFER_LEN (URL_EXTENSION ++ [0]) b1
        ((pfxFor t).length + STATION_ID_LEN)
        (by simp only [List.length_append, List.length_cons, List.length_nil]; omega)
    simp only [formURL, if_neg hcond, hb1]
    rw [SHORT_LEN_eq, h4]
    simp only [show ((4 : Nat) = 3) = False from by norm_num, if_false]
    rw [if_pos hassert, hb3]
    exact ⟨b3, rfl⟩
  · obtain ⟨b2, hb2⟩ := @writeNats_some URL_BUFFER_LEN DEFAULT_STATION_PFX b1 (pfxFor t).length
      (by rw [show DEFAULT_STATION_PFX.length = 1 from rfl]; omega)
    obtain ⟨b3, hb3⟩ := @writeNats_some URL_BUFFER_LEN (URL_EXTENSION ++ [0]) b2
        ((pfxFor t).length + STATION_ID_LEN)
        (by simp only [List.length_append, List.length_cons, List.length_nil]; omega)
    simp only [formURL, if_neg hcond, hb1]
    rw [SHORT_LEN_eq, h3len]
    simp only [show ((3 : Nat) = 3) = True from by norm_num, if_true, hb2]
    rw [if_pos hassert, hb3]
    exact ⟨b3, rfl⟩

theorem formURL_len_of_ok {t : UrlType} {s b : List Nat}
    (h : formURL URL_BUFFER_LEN t s = .ok b) : s.length = 4 ∨ s.length = 3 := by
  by_contra hlen
  rw [formURL_badLength t s hlen] at h
  cases h

theorem formURL_alnum_of_ok {t : UrlType} {s b : List Nat}
    (h : formURL URL_BUFFER_LEN t s = .ok b) : ∀ c ∈ s, isalnum c = true := by
  intro c hc
  have hlen := formURL_len_of_ok h
  have hcond : ¬(s.length ≠ STATION_ID_LEN ∧
      s.length ≠ STATION_ID_LEN - DEFAULT_STATION_PFX_LEN) := by
    rw [SHORT_LEN_eq, STATION_ID_LEN_eq]; omega
  rcases hres : stationLoop URL_BUFFER_LEN s.length s (pfxFor t).length
      (List.range' 1 s.length) (strncpyFresh (pfxFor t) URL_BUFFER_LEN) with b1 | _ | _
  · have hall := stationLoop_alnum_of_ok (List.range' 1 s.length) _ _ hres
    obtain ⟨p, hp, rfl⟩ := List.mem_iff_getElem.mp hc
    have hi : (s.length - p) ∈ List.range' 1 s.length :=
      List.mem_range'_1.mpr ⟨by omega, by omega⟩
    have halp := hall _ hi
    rw [show s.length - (s.length - p) = p from by omega] at halp
    rwa [List.getD_eq_getElem s 0 hp] at halp
  · simp only [formURL, if_neg hcond, hres] at h
    cases h
  · exact absurd hres (stationLoop_ne_oob _ range'_one_le (pfx_written_le t) _)

theorem formURL_badChar (t : UrlType) (s : List Nat)
    (hlen : s.length = 4 ∨ s.length = 3)
    (hbad : ∃ c ∈ s, isalnum c = false) :
    formURL URL_BUFFER_LEN t s = .err .badChar := by
  have hcond : ¬(s.length ≠ STATION_ID_LEN ∧
      s.length ≠ STATION_ID_LEN - DEFAULT_STATION_PFX_LEN) := by
    rw [SHORT_LEN_eq, STATION_ID_LEN_eq]; omega
  rcases hres : stationLoop URL_BUFFER_LEN s.length s (pfxFor t).length
      (List.range' 1 s.length) (strncpyFresh (pfxFor t) URL_BUFFER_LEN) with b1 | _ | _
  · exfalso
    have hall := stationLoop_alnum_of_ok (List.range' 1 s.length) _ _ hres
    obtain ⟨c, hc, hcf⟩ := hbad
    obtain ⟨p, hp, rfl⟩ := List.mem_iff_getElem.mp hc
    have hi : (s.length - p) ∈ List.range' 1 s.length :=
      List.mem_range'_1.mpr ⟨by omega, by omega⟩
    have halp := hall _ hi
    rw [show s.length - (s.length - p) = p from by omega,
      List.getD_eq_getElem s 0 hp, hcf] at halp
    cases halp
  · simp only [formURL, if_neg hcond, hres]
  · exact absurd hres (stationLoop_ne_oob _ range'_one_le (pfx_written_le t) _)

theorem formURL_ok_iff (t : UrlType) (s : List Nat) :
    (∃ b, formURL URL_BUFFER_LEN t s = .ok b) ↔
      ((s.length = 4 ∨ s.length = 3) ∧ ∀ c ∈ s, isalnum c = true) :=
  ⟨fun ⟨_, hb⟩ => ⟨formURL_len_of_ok hb, formURL_alnum_of_ok hb⟩,
   fun ⟨h1, h2⟩ => formURL_ok_of_valid t s h1 h2⟩

theorem formURL_safe (t : UrlType) (s : List Nat)
    (hlen : s.length = 4 ∨ s.length = 3) :
    formURL URL_BUFFER_LEN t s ≠ .oob ∧ formURL URL_BUFFER_LEN t s ≠ .assertFail := by
  by_cases hal : ∀ c ∈ s, isalnum c = true
  · obtain ⟨b, hb⟩ := formURL_ok_of_valid t s hlen hal
    rw [hb]
    refine ⟨?_, ?_⟩ <;> intro h <;> cases h
  · push_neg at hal
    obtain ⟨c, hc, hcf⟩ := hal
    rw [formURL_badChar t s hlen ⟨c, hc, Bool.not_eq_true _ ▸ hcf⟩]
    refine ⟨?_, ?_⟩ <;> intro h <;> cases h

end Metar

namespace Metar

set_option maxRecDepth 8000

/-- C1: for every station string of exactly 4 alphanumeric characters, `formURL`
succeeds, and the URL buffer read back as a C string is the fixed base prefix of
the requested kind, followed by the station uppercased in order, followed by
the fixed extension ".TXT". -/
theorem c1_formURL_four_char (t : UrlType) (s : List Nat) (hlen : s.length = 4)
    (hal : ∀ c ∈ s, isalnum c = true) :
    ∃ buf, formURL URL_BUFFER_LEN t s = .ok buf ∧
      cstring buf = pfxFor t ++ s.map toupper ++ URL_EXTENSION := by
  rcases s with _ | ⟨a, _ | ⟨b, _ | ⟨c, _ | ⟨d, _ | ⟨e, rest⟩⟩⟩⟩⟩ <;>
    simp only [List.length_cons, List.length_nil] at hlen <;> try omega
  have ha : isalnum a = true := hal a (by simp)
  have hb : isalnum b = true := hal b (by simp)
  have hc : isalnum c = true := hal c (by simp)
  have hd : isalnum d = true := hal d (by simp)
  cases t <;>
  · simp only [formURL, pfxFor, URL_PFX_METAR, URL_PFX_TAF, URL_PFX_DECODED, URL_EXTENSION,
      URL_BUFFER_LEN, LONGEST_URL_PFX, STATION_ID_LEN, DEFAULT_STATION_PFX_LEN,
      DEFAULT_STATION_PFX, str, cstring]
    simp [strncpyFresh, stationLoop, cwrite, writeNats, STATION_ID_LEN, ha, hb, hc, hd,
      toupper_ne_zero ha, toupper_ne_zero hb, toupper_ne_zero hc, toupper_ne_zero hd]

/-- C1 witness: the 4-character station "kjfk" with the METAR kind. -/
theorem c1_formURL_four_char_witness :
    ∃ buf, formURL URL_BUFFER_LEN UrlType.METAR (str "kjfk") = .ok buf ∧
      cstring buf = pfxFor UrlType.METAR ++ (str "kjfk").map toupper ++ URL_EXTENSION :=
  c1_formURL_four_char UrlType.METAR (str "kjfk") (by decide) (by decide)

/-- C2: for every station string of exactly 3 alphanumeric characters, `formURL`
succeeds, and the URL buffer read back as a C string is the fixed base prefix of
the requested kind, followed by the default prefix "K", followed by the station
uppercased in order, followed by ".TXT" — a 4-character station field. -/
theorem c2_formURL_three_char (t : UrlType) (s : List Nat) (hlen : s.length = 3)
    (hal : ∀ c ∈ s, isalnum c = true) :
    ∃ buf, formURL URL_BUFFER_LEN t s = .ok buf ∧
      cstring buf = pfxFor t ++ DEFAULT_STATION_PFX ++ s.map toupper ++ URL_EXTENSION ∧
      (DEFAULT_STATION_PFX ++ s.map toupper).length = STATION_ID_LEN := by
  rcases s with _ | ⟨a, _ | ⟨b, _ | ⟨c, _ | ⟨d, rest⟩⟩⟩⟩ <;>
    simp only [List.length_cons, List.length_nil] at hlen <;> try omega
  have ha : isalnum a = true := hal a (by simp)
  have hb : isalnum b = true := hal b (by simp)
  have hc : isalnum c = true := hal c (by simp)
  cases t <;>
  · simp only [formURL, pfxFor, URL_PFX_METAR, URL_PFX_TAF, URL_PFX_DECODED, URL_EXTENSION,
      URL_BUFFER_LEN, LONGEST_URL_PFX, STATION_ID_LEN, DEFAULT_STATION_PFX_LEN,
      DEFAULT_STATION_PFX, str, cstring]
    simp [strncpyFresh, stationLoop, cwrite, writeNats, STATION_ID_LEN, ha, hb, hc,
      toupper_ne_zero ha, toupper_ne_zero hb, toupper_ne_zero hc]

/-- C2 witness: the 3-character station "lax" with the Decoded kind. -/
theorem c2_formURL_three_char_witness :
    ∃ buf, formURL URL_BUFFER_LEN UrlType.Decoded (str "lax") = .ok buf ∧
      cstring buf = pfxFor UrlType.Decoded ++ DEFAULT_STATION_PFX ++ (str "lax").map toupper ++
        URL_EXTENSION ∧
      (DEFAULT_STATION_PFX ++ (str "lax").map toupper).length = STATION_ID_LEN :=
  c2_formURL_three_char UrlType.Decoded (str "lax") (by decide) (by decide)

end Metar

namespace Metar

/-- C3: a station whose length is not 3 or 4 fails with the length error; a
station of accepted length containing a non-alphanumeric byte fails with the
alphanumeric error; the two errors are distinct; and on any validation error
the loop iteration performs no fetch (its only event is the diagnostic) and
the run continues with the next station. -/
theorem c3_formURL_validation_errors (t : UrlType) (s : List Nat) :
    (¬(s.length = 4 ∨ s.length = 3) → formURL URL_BUFFER_LEN t s = .err .badLength) ∧
    ((s.length = 4 ∨ s.length = 3) → (∃ c ∈ s, isalnum c = false) →
      formURL URL_BUFFER_LEN t s = .err .badChar) ∧
    errDiag .badLength ≠ errDiag .badChar ∧
    (∀ (net : List Nat → FetchResult) (d tf : Bool) (e : FormErr)
      (rest : List (List Nat)),
      formURL URL_BUFFER_LEN (primaryKind d) s = .err e →
        processStation net d tf s = [.diag (errDiag e)] ∧
        runLoop net d tf (s :: rest) = .diag (errDiag e) :: runLoop net d tf rest) := by
  refine ⟨formURL_badLength t s, formURL_badChar t s, by decide, ?_⟩
  intro net d tf e rest hf
  have hps : processStation net d tf s = [.diag (errDiag e)] := by
    simp only [processStation, hf]
  exact ⟨hps, by simp only [runLoop, hps, List.cons_append, List.nil_append]⟩

/-- C3 witness: "ab" (length 2) hits the length error; "a!c" (length 3 with a
non-alphanumeric byte) hits the alphanumeric error; a rejected station's
iteration consists of the diagnostic alone. -/
theorem c3_formURL_validation_errors_witness :
    formURL URL_BUFFER_LEN UrlType.METAR (str "ab") = .err .badLength ∧
    formURL URL_BUFFER_LEN UrlType.TAF (str "a!c") = .err .badChar ∧
    processStation (fun _ => ⟨CURLE_OK, 200, []⟩) false false (str "ab") =
      [.diag (errDiag .badLength)] :=
  ⟨(c3_formURL_validation_errors UrlType.METAR (str "ab")).1 (by decide),
   (c3_formURL_validation_errors UrlType.TAF (str "a!c")).2.1 (by decide) (by decide),
   (((c3_formURL_validation_errors UrlType.METAR (str "ab")).2.2.2
      (fun _ => ⟨CURLE_OK, 200, []⟩) false false .badLength [] (by decide)).1)⟩

/-- C4: for every request kind the buffer capacity accommodates the kind's
prefix plus the 4-byte station field plus the extension plus the terminator,
and for every station of accepted length (3 or 4) `formURL` neither writes out
of the buffer's bounds nor trips the capacity assertion before the extension. -/
theorem c4_buffer_capacity_safe (t : UrlType) (s : List Nat)
    (hlen : s.length = 4 ∨ s.length = 3) :
    (pfxFor t).length + STATION_ID_LEN + (URL_EXTENSION.length + 1) ≤ URL_BUFFER_LEN ∧
    formURL URL_BUFFER_LEN t s ≠ .oob ∧
    formURL URL_BUFFER_LEN t s ≠ .assertFail :=
  ⟨pfx_assert_holds t, (formURL_safe t s hlen).1, (formURL_safe t s hlen).2⟩

/-- C4 witness: the METAR kind (longest prefix) with the 4-character station
"KJFK". -/
theorem c4_buffer_capacity_safe_witness :
    (pfxFor UrlType.METAR).length + STATION_ID_LEN + (URL_EXTENSION.length + 1) ≤
      URL_BUFFER_LEN ∧
    formURL URL_BUFFER_LEN UrlType.METAR (str "KJFK") ≠ .oob ∧
    formURL URL_BUFFER_LEN UrlType.METAR (str "KJFK") ≠ .assertFail :=
  c4_buffer_capacity_safe UrlType.METAR (str "KJFK") (by decide)

/-- C10: if the primary `formURL` call of an iteration succeeded, the secondary
`formURL(TAF, station)` call cannot fail (validation does not depend on the
kind), and whenever `-t` is set and the primary fetch was classified a success,
the secondary TAF GET is actually issued. -/
theorem c10_taf_formURL_never_fails (net : List Nat → FetchResult) (d : Bool)
    (s buf : List Nat) (h : formURL URL_BUFFER_LEN (primaryKind d) s = .ok buf) :
    (∃ buf2, formURL URL_BUFFER_LEN UrlType.TAF s = .ok buf2) ∧
    (classify (net (cstring buf)).res (net (cstring buf)).response = .success →
      ∃ buf2, formURL URL_BUFFER_LEN UrlType.TAF s = .ok buf2 ∧
        Event.fetch (cstring buf2) (net (cstring buf2)) ∈ processStation net d true s) := by
  obtain ⟨buf2, hb2⟩ :=
    formURL_ok_of_valid UrlType.TAF s (formURL_len_of_ok h) (formURL_alnum_of_ok h)
  refine ⟨⟨buf2, hb2⟩, fun hcls => ⟨buf2, hb2, ?_⟩⟩
  simp only [processStation, h, hcls, hb2, if_true]
  simp

end Metar

namespace Metar

theorem classify_notFound_iff (res : Nat) (response : Int) :
    classify res response = .notFound ↔
      (res = CURLE_REMOTE_FILE_NOT_FOUND ∨ response = HTTP_RESPONSE_NOT_FOUND) := by
  unfold classify
  split_ifs with hA hB <;> simp_all

theorem classify_transport_iff (res : Nat) (response : Int) :
    classify res response = .transportError ↔
      (¬(res = CURLE_REMOTE_FILE_NOT_FOUND ∨ response = HTTP_RESPONSE_NOT_FOUND) ∧
        res ≠ CURLE_OK) := by
  unfold classify
  split_ifs with hA hB <;> simp_all

theorem classify_success_iff (res : Nat) (response : Int) :
    classify res response = .success ↔
      (¬(res = CURLE_REMOTE_FILE_NOT_FOUND ∨ response = HTTP_RESPONSE_NOT_FOUND) ∧
        res = CURLE_OK) := by
  unfold classify
  split_ifs with hA hB <;> simp_all

theorem primaryURL_some_elim {d : Bool} {s u : List Nat}
    (h1 : primaryURL d s = some u) :
    ∃ buf, formURL URL_BUFFER_LEN (primaryKind d) s = .ok buf ∧ cstring buf = u := by
  cases hf : formURL URL_BUFFER_LEN (primaryKind d) s with
  | ok buf =>
    simp only [primaryURL, urlOf, hf, Option.some.injEq] at h1
    exact ⟨buf, rfl, h1⟩
  | err e =>
    simp only [primaryURL, urlOf, hf] at h1
    exact Option.noConfusion h1
  | oob =>
    simp only [primaryURL, urlOf, hf] at h1
    exact Option.noConfusion h1
  | assertFail =>
    simp only [primaryURL, urlOf, hf] at h1
    exact Option.noConfusion h1

end Metar

namespace Metar

/-- C5: a primary fetch outcome is NotFound exactly when the transport reports
CURLE_REMOTE_FILE_NOT_FOUND or the resolved status code is 404, otherwise a
TransportError exactly when the transport reports any other non-success code,
otherwise a Success; on NotFound the iteration ends with a diagnostic naming
the station, on TransportError with the transport description and a diagnostic
naming the station, and in each case the loop continues with the next
station. -/
theorem c5_outcome_classification (net : List Nat → FetchResult) (d tafs : Bool)
    (s u : List Nat) (res : Nat) (response : Int)
    (h1 : primaryURL d s = some u) :
    (classify res response = .notFound ↔
      (res = CURLE_REMOTE_FILE_NOT_FOUND ∨ response = HTTP_RESPONSE_NOT_FOUND)) ∧
    (classify res response = .transportError ↔
      (¬(res = CURLE_REMOTE_FILE_NOT_FOUND ∨ response = HTTP_RESPONSE_NOT_FOUND) ∧
        res ≠ CURLE_OK)) ∧
    (classify res response = .success ↔
      (¬(res = CURLE_REMOTE_FILE_NOT_FOUND ∨ response = HTTP_RESPONSE_NOT_FOUND) ∧
        res = CURLE_OK)) ∧
    (classify (net u).res (net u).response = .notFound →
      processStation net d tafs s =
        [.fetch u (net u), .out (printedBody (net u).chunks), .diag (.notFound s)]) ∧
    (classify (net u).res (net u).response = .transportError →
      processStation net d tafs s =
        [.fetch u (net u), .out (printedBody (net u).chunks),
          .diag (.strerror (net u).res), .diag (.unableToFetch s)]) ∧
    (∀ rest, runLoop net d tafs (s :: rest) =
      processStation net d tafs s ++ runLoop net d tafs rest) := by
  obtain ⟨buf, hf, hu⟩ := primaryURL_some_elim h1
  refine ⟨classify_notFound_iff res response, classify_transport_iff res response,
    classify_success_iff res response, ?_, ?_, fun rest => rfl⟩
  · intro hcls
    simp only [processStation, hf, hu, hcls]
    simp
  · intro hcls
    simp only [processStation, hf, hu, hcls]
    simp

/-- C5 witness: the transport code CURLE_REMOTE_FILE_NOT_FOUND with status 200
is classified NotFound, a failed code 28 (timeout) with status 0 is classified
TransportError and emits the two diagnostics, instantiated with the station
"KLAW" (whose primary URL is well-formed but unknown to the oracle). -/
theorem c5_outcome_classification_witness :
    (classify 78 200 = .notFound ↔
      ((78 : Nat) = CURLE_REMOTE_FILE_NOT_FOUND ∨ (200 : Int) = HTTP_RESPONSE_NOT_FOUND)) ∧
    processStation netTwo false false (str "KLAW") =
      [.fetch (str "http://tgftp.nws.noaa.gov/data/observations/metar/stations/KLAW.TXT")
          (netTwo (str "http://tgftp.nws.noaa.gov/data/observations/metar/stations/KLAW.TXT")),
        .out (printedBody (netTwo
          (str "http://tgftp.nws.noaa.gov/data/observations/metar/stations/KLAW.TXT")).chunks),
        .diag (.notFound (str "KLAW"))] :=
  ⟨(c5_outcome_classification netTwo false false (str "KLAW")
      (str "http://tgftp.nws.noaa.gov/data/observations/metar/stations/KLAW.TXT")
      78 200 (by decide)).1,
   (c5_outcome_classification netTwo false false (str "KLAW")
      (str "http://tgftp.nws.noaa.gov/data/observations/metar/stations/KLAW.TXT")
      78 200 (by decide)).2.2.2.1 (by decide)⟩

/-- C6 counterexample: with a station argument present and the HTTP client
construction failing, the process exits with EX_SOFTWARE (70), not with the
usage-error status EX_USAGE (64) that the no-argument invocation uses. -/
theorem c6_curl_init_not_usage_status :
    (metarMain netOk false [str "KJFK"]).1 = EX_SOFTWARE ∧
    (metarMain netOk false []).1 = EX_USAGE ∧
    EX_SOFTWARE ≠ EX_USAGE := by decide

/-- C6 (amended): the process exits with the usage-error status EX_USAGE when
invoked with an unrecognized flag or with no station arguments; with the
distinct status EX_SOFTWARE when the HTTP client cannot be constructed; and
with the success status EX_OK in every other case, regardless of how the
individual stations fare. -/
theorem c6_exit_status_amended (net : List Nat → FetchResult) (curlOk : Bool)
    (args : List (List Nat)) :
    (getoptAll false false args = none → (metarMain net curlOk args).1 = EX_USAGE) ∧
    (∀ d t stations, getoptAll false false args = some (d, t, stations) →
      (stations = [] → (metarMain net curlOk args).1 = EX_USAGE) ∧
      (stations ≠ [] → curlOk = false → (metarMain net curlOk args).1 = EX_SOFTWARE) ∧
      (stations ≠ [] → curlOk = true → (metarMain net curlOk args).1 = EX_OK)) := by
  refine ⟨fun h => by simp [metarMain, h], ?_⟩
  intro d t stations h
  have hlen : stations ≠ [] → ¬(stations.length < 1) := by
    intro h1
    cases stations with
    | nil => exact absurd rfl h1
    | cons a l => simp
  refine ⟨?_, ?_, ?_⟩
  · intro h1
    subst h1
    simp [metarMain, h]
  · intro h1 h2
    subst h2
    simp [metarMain, h, hlen h1]
  · intro h1 h2
    subst h2
    simp [metarMain, h, hlen h1]

/-- C6 amended witness: a failing client construction with one station exits
EX_SOFTWARE; a successful one exits EX_OK. -/
theorem c6_exit_status_amended_witness :
    (metarMain netOk false [str "KJFK"]).1 = EX_SOFTWARE ∧
    (metarMain netOk true [str "KJFK"]).1 = EX_OK :=
  ⟨((c6_exit_status_amended netOk false [str "KJFK"]).2 false false [str "KJFK"]
      (by decide)).2.1 (by decide) rfl,
   ((c6_exit_status_amended netOk true [str "KJFK"]).2 false false [str "KJFK"]
      (by decide)).2.2 (by decide) rfl⟩

/-- C7: the write callback `printData` does not reproduce a delivered chunk
byte for byte: `printf("%s", contents)` stops at the first NUL byte, so the
chunk 'A', NUL, 'B' is printed as just 'A', dropping two bytes. -/
theorem c7_printData_truncates_at_nul :
    printData [65, 0, 66] = [65] ∧ printData [65, 0, 66] ≠ [65, 0, 66] := by decide

/-- C8: when -t is set and the primary fetch was classified a success, the
iteration performs exactly one secondary fetch, against the TAF URL of the
station (whatever the decoded flag is), prints the secondary response body as
delivered, emits no diagnostic whatsoever, and the process exit status does
not depend on the transport oracle at all. -/
theorem c8_secondary_taf_fetch (net : List Nat → FetchResult) (d : Bool)
    (s u : List Nat) (h1 : primaryURL d s = some u)
    (h2 : classify (net u).res (net u).response = .success) :
    ∃ u2, urlOf UrlType.TAF s = some u2 ∧
      processStation net d true s =
        [.fetch u (net u), .out (printedBody (net u).chunks),
          .fetch u2 (net u2), .out (printedBody (net u2).chunks)] ∧
      (∀ ev ∈ processStation net d true s, isDiag ev = false) ∧
      (∀ (net2 net3 : List Nat → FetchResult) (curlOk : Bool) (args : List (List Nat)),
        (metarMain net2 curlOk args).1 = (metarMain net3 curlOk args).1) := by
  obtain ⟨buf, hf, hu⟩ := primaryURL_some_elim h1
  obtain ⟨buf2, hb2⟩ :=
    formURL_ok_of_valid UrlType.TAF s (formURL_len_of_ok hf) (formURL_alnum_of_ok hf)
  have hps : processStation net d true s =
      [.fetch u (net u), .out (printedBody (net u).chunks),
        .fetch (cstring buf2) (net (cstring buf2)),
        .out (printedBody (net (cstring buf2)).chunks)] := by
    simp only [processStation, hf, hu, h2, hb2]
    simp
  refine ⟨cstring buf2, by simp [urlOf, hb2], hps, ?_, ?_⟩
  · rw [hps]
    intro ev hev
    simp only [List.mem_cons, List.not_mem_nil, or_false] at hev
    rcases hev with rfl | rfl | rfl | rfl <;> rfl
  · intro net2 net3 curlOk args
    cases hg : getoptAll false false args with
    | none => simp [metarMain, hg]
    | some triple =>
      obtain ⟨d2, t2, stations⟩ := triple
      simp only [metarMain, hg]
      split_ifs <;> rfl

/-- C8 witness: station "KJFK" under the all-success oracle with -t set. -/
theorem c8_secondary_taf_fetch_witness :
    ∃ u2, urlOf UrlType.TAF (str "KJFK") = some u2 ∧
      processStation netOk false true (str "KJFK") =
        [.fetch (str "http://tgftp.nws.noaa.gov/data/observations/metar/stations/KJFK.TXT")
            (netOk (str "http://tgftp.nws.noaa.gov/data/observations/metar/stations/KJFK.TXT")),
          .out (printedBody (netOk
            (str "http://tgftp.nws.noaa.gov/data/observations/metar/stations/KJFK.TXT")).chunks),
          .fetch u2 (netOk u2), .out (printedBody (netOk u2).chunks)] ∧
      (∀ ev ∈ processStation netOk false true (str "KJFK"), isDiag ev = false) ∧
      (∀ (net2 net3 : List Nat → FetchResult) (curlOk : Bool) (args : List (List Nat)),
        (metarMain net2 curlOk args).1 = (metarMain net3 curlOk args).1) :=
  c8_secondary_taf_fetch netOk false (str "KJFK")
    (str "http://tgftp.nws.noaa.gov/data/observations/metar/stations/KJFK.TXT")
    (by decide) (by decide)

/-- C9 counterexample: two stations both fetched successfully, the second body
containing an interior NUL byte; standard output is not the concatenation of
the two bodies as received — the second body is truncated at the NUL. -/
theorem c9_stdout_not_exact_concatenation :
    stdoutOf (runLoop netTwo false false [str "KJFK", str "KLAX"]) = [72, 73, 10, 87] ∧
    stdoutOf (runLoop netTwo false false [str "KJFK", str "KLAX"]) ≠
      [72, 73, 10] ++ [87, 0, 88, 10] := by decide

/-- C9 (amended): the stations are processed one at a time in argument order,
no iteration's outcome aborts the remaining stations, and standard output is
the concatenation, in station-argument order, of each station's printed
output (each delivered chunk passes through `printData`, which truncates it at
its first NUL byte, so the output need not equal the bodies byte for byte). -/
theorem c9_stdout_in_order (net : List Nat → FetchResult) (d tf : Bool) :
    (∀ s rest, runLoop net d tf (s :: rest) =
      processStation net d tf s ++ runLoop net d tf rest) ∧
    (∀ stations, stdoutOf (runLoop net d tf stations) =
      (stations.map (fun s => stdoutOf (processStation net d tf s))).flatten) := by
  have happ : ∀ a b : List Event, stdoutOf (a ++ b) = stdoutOf a ++ stdoutOf b := by
    intro a b
    simp [stdoutOf, List.filterMap_append]
  refine ⟨fun s rest => rfl, ?_⟩
  intro stations
  induction stations with
  | nil => rfl
  | cons s rest ih => simp [runLoop, happ, ih]

end Metar

namespace Metar

/-- C10 witness: station "KJFK" whose primary METAR URL construction succeeded;
the TAF construction succeeds and, the all-success oracle classifying the
primary fetch a success, the TAF fetch event occurs in the iteration. -/
theorem c10_taf_formURL_never_fails_witness :
    ∃ buf2, formURL URL_BUFFER_LEN UrlType.TAF (str "KJFK") = .ok buf2 ∧
      Event.fetch (cstring buf2) (netOk (cstring buf2)) ∈
        processStation netOk false true (str "KJFK") :=
  (c10_taf_formURL_never_fails netOk false (str "KJFK")
    (str "http://tgftp.nws.noaa.gov/data/observations/metar/stations/KJFK.TXT" ++ [0])
    (by decide)).2 (by decide)

end Metar
